import Mathlib

/-
  Verification of the action-dispatch protocol of the ClienteGame relay.

  The embedding models the two source files:
    - src/bot.py      : `get_session_id`, `send_to_server`, `ActionDispatcher`
    - src/dispatcher.py : `MessageDispatcher`

  Python dicts mapping chat ids to values are modelled as functions
  `Int → Option _`; the chat-platform client (aiogram `Bot`) is modelled as an
  oracle of outcome functions; JSON truthiness of a `message_id` value is
  modelled on a small value type `JVal` (integers and strings).
-/

namespace ClienteGame

/-- A JSON scalar that can appear in `data.message_id`: either an integer or a
string.  Python truthiness on these is `n != 0` resp. `s != ""`. -/
inductive JVal where
  | i : Int → JVal
  | s : String → JVal
deriving DecidableEq

/-- Python truthiness of a `JVal`. -/
def JVal.truthy : JVal → Bool
  | .i n => n != 0
  | .s st => st != ""

/-- Python truthiness of an optional `JVal` (`None` is falsy). -/
def truthyO : Option JVal → Bool
  | none => false
  | some v => v.truthy

/-- A platform message handle; the code only ever uses its `message_id`
(aiogram `Message.message_id`, an integer). -/
structure Msg where
  message_id : Int
deriving DecidableEq

/-- One inline keyboard button, as built from a `data.buttons` entry
(`btn.get("text", "")`, `btn.get("callback_data", "")`). -/
structure Button where
  text : String := ""
  callback_data : String := ""
deriving DecidableEq

/-- The fields of the backend's `data` mapping that the handlers read.
Absent keys are `none`; `dict.get` with a default is `Option.getD`. -/
structure DataMap where
  text : Option String := none
  buttons : Option (List Button) := none
  photo : Option String := none
  caption : Option String := none
  message_id : Option JVal := none
deriving DecidableEq

/-- The backend's `data` field as received: either a JSON mapping or some
non-mapping value (list, string, number ...) on which attribute access
`.get` raises `AttributeError`. -/
inductive DataVal where
  | map : DataMap → DataVal
  | nonMap : DataVal
deriving DecidableEq

/-- The backend's reply envelope.  Every field may be absent. -/
structure ActionResponse where
  action : Option String := none
  data : Option DataVal := none
  user_role : Option String := none
deriving DecidableEq

/-- One outbound chat-platform call, as recorded in the trace of a dispatch. -/
inductive Call where
  | answer : Int → String → Option (List (List Button)) → Call
  | send_photo : Int → Option String → Option String → Call
  | edit_message_text : Int → JVal → String → Option (List (List Button)) → Call
  | delete_message : Int → JVal → Call
deriving DecidableEq

/-- A Python exception escaping a handler: `AttributeError` from attribute
access on a non-mapping, or a platform API error from an outbound call. -/
inductive PyErr where
  | attributeError : PyErr
  | platformError : PyErr
deriving DecidableEq

/-- The chat-platform client (aiogram `Bot`) as an outcome oracle: each
method either returns a message handle (for sends) or fails. -/
structure TgApi where
  answer : Int → String → Option (List (List Button)) → Except Unit Msg
  send_photo : Int → Option String → Option String → Except Unit Msg
  edit_message_text : Int → JVal → String → Option (List (List Button)) → Except Unit Unit
  delete_message : Int → JVal → Except Unit Unit

/-- A handler's outcome: the Python return value (or the exception it raised),
the last-bot-message cache after the handler ran, and the platform calls it
made. -/
def HandlerOut : Type :=
  Except PyErr (Option Msg) × (Int → Option Msg) × List Call

/-- The observable outcome of one `dispatch` run: whether it returned
normally or raised, the cache afterwards, the platform calls made, and
whether the unknown-action warning was logged. -/
structure DispatchOut where
  result : Except PyErr Unit
  cache : Int → Option Msg
  calls : List Call
  warned : Bool

/-- The single-button rows built by the list comprehension
`[[InlineKeyboardButton(...)] for btn in buttons_cfg]`. -/
def inline_keyboard (l : List Button) : List (List Button) :=
  l.map (fun b => [b])

/-- `show_menu`'s markup: `data.get("buttons", [])` followed by
`if buttons_cfg:` — a markup is attached iff the list is nonempty. -/
def menu_markup (l : List Button) : Option (List (List Button)) :=
  if l = [] then none else some (inline_keyboard l)

/-- `MessageDispatcher._edit_message`'s markup: `data.get("buttons")`
followed by `if buttons_cfg:` — attached iff present and nonempty. -/
def edit_markup : Option (List Button) → Option (List (List Button))
  | none => none
  | some l => if l = [] then none else some (inline_keyboard l)

/-- Target resolution shared by `_edit_message` and `_delete_message`
(dispatcher.py lines 68-74 / 92-98, bot.py lines 116-121 / 131-136):

    message_id = data.get("message_id")
    if not message_id:             -- truthiness, not presence
        last = <cache lookup>
        if last: message_id = last.message_id
    if not message_id: return None -- truthiness again

Returns the resolved target, or `none` when the handler returns early. -/
def resolve_target (mid : Option JVal) (cached : Option Msg) : Option JVal :=
  let v : Option JVal :=
    if truthyO mid then mid
    else
      match cached with
      | some last => some (JVal.i last.message_id)
      | none => mid
  if truthyO v then v else none

/-- The tail of `dispatch`:

    if sent: self._last_bot_message[chat.id] = sent

run after the handler, unless the handler raised. -/
def record_sent (chat : Int) (h : HandlerOut) : DispatchOut :=
  match h with
  | (Except.ok (some msg), cache1, calls) =>
    { result := Except.ok (), cache := fun c => if c = chat then some msg else cache1 c,
      calls := calls, warned := false }
  | (Except.ok none, cache1, calls) =>
    { result := Except.ok (), cache := cache1, calls := calls, warned := false }
  | (Except.error e, cache1, calls) =>
    { result := Except.error e, cache := cache1, calls := calls, warned := false }

namespace MessageDispatcher

/-- `MessageDispatcher._reply`: `await message.answer(data.get("text", ""))`. -/
def reply (plat : TgApi) (chat : Int) (cache : Int → Option Msg) (data : DataVal) : HandlerOut :=
  match data with
  | .nonMap => (Except.error PyErr.attributeError, cache, [])
  | .map m =>
    let text := m.text.getD ""
    match plat.answer chat text none with
    | Except.ok msg => (Except.ok (some msg), cache, [Call.answer chat text none])
    | Except.error _ => (Except.error PyErr.platformError, cache, [Call.answer chat text none])

/-- `MessageDispatcher._show_menu`: sends `data.get("text","")` with single-
button rows built from `data.get("buttons", [])` when that list is nonempty. -/
def show_menu (plat : TgApi) (chat : Int) (cache : Int → Option Msg) (data : DataVal) : HandlerOut :=
  match data with
  | .nonMap => (Except.error PyErr.attributeError, cache, [])
  | .map m =>
    let markup := menu_markup (m.buttons.getD [])
    let text := m.text.getD ""
    match plat.answer chat text markup with
    | Except.ok msg => (Except.ok (some msg), cache, [Call.answer chat text markup])
    | Except.error _ => (Except.error PyErr.platformError, cache, [Call.answer chat text markup])

/-- `MessageDispatcher._send_photo`: `bot.send_photo(chat_id, data.get("photo"),
data.get("caption"))`; returns the sent message handle. -/
def send_photo (plat : TgApi) (chat : Int) (cache : Int → Option Msg) (data : DataVal) : HandlerOut :=
  match data with
  | .nonMap => (Except.error PyErr.attributeError, cache, [])
  | .map m =>
    match plat.send_photo chat m.photo m.caption with
    | Except.ok msg => (Except.ok (some msg), cache, [Call.send_photo chat m.photo m.caption])
    | Except.error _ => (Except.error PyErr.platformError, cache, [Call.send_photo chat m.photo m.caption])

/-- `MessageDispatcher._edit_message`: resolves the target via
`resolve_target`, then calls `edit_message_text` with `data.get("text","")`
and the optional `buttons` markup; a platform failure propagates (no try). -/
def edit_message (plat : TgApi) (chat : Int) (cache : Int → Option Msg) (data : DataVal) : HandlerOut :=
  match data with
  | .nonMap => (Except.error PyErr.attributeError, cache, [])
  | .map m =>
    match resolve_target m.message_id (cache chat) with
    | some t =>
      let markup := edit_markup m.buttons
      let text := m.text.getD ""
      match plat.edit_message_text chat t text markup with
      | Except.ok _ => (Except.ok none, cache, [Call.edit_message_text chat t text markup])
      | Except.error _ => (Except.error PyErr.platformError, cache, [Call.edit_message_text chat t text markup])
    | none => (Except.ok none, cache, [])

/-- `MessageDispatcher._delete_message`: when `data.get("message_id")` is
falsy, `pop` unconditionally removes the chat's cache entry; the platform
`delete_message` call sits inside `try/except`, so its outcome is swallowed. -/
def delete_message (plat : TgApi) (chat : Int) (cache : Int → Option Msg) (data : DataVal) : HandlerOut :=
  match data with
  | .nonMap => (Except.error PyErr.attributeError, cache, [])
  | .map m =>
    let cache1 : Int → Option Msg :=
      if truthyO m.message_id then cache else fun c => if c = chat then none else cache c
    match resolve_target m.message_id (cache chat) with
    | some t =>
      match plat.delete_message chat t with
      | _ => (Except.ok none, cache1, [Call.delete_message chat t])
    | none => (Except.ok none, cache1, [])

/-- `MessageDispatcher.dispatch` (dispatcher.py lines 29-43): falsy action →
silent return; known action → run handler and record a returned message as
the chat's last bot message; unknown action → logged warning, return. -/
def dispatch (plat : TgApi) (chat : Int) (cache : Int → Option Msg) (response : ActionResponse) : DispatchOut :=
  let data := response.data.getD (DataVal.map {})
  match response.action with
  | none => { result := Except.ok (), cache := cache, calls := [], warned := false }
  | some a =>
    if a = "" then { result := Except.ok (), cache := cache, calls := [], warned := false }
    else if a = "reply" then record_sent chat (reply plat chat cache data)
    else if a = "show_menu" then record_sent chat (show_menu plat chat cache data)
    else if a = "send_photo" then record_sent chat (send_photo plat chat cache data)
    else if a = "edit_message" then record_sent chat (edit_message plat chat cache data)
    else if a = "delete_message" then record_sent chat (delete_message plat chat cache data)
    else { result := Except.ok (), cache := cache, calls := [], warned := true }

end MessageDispatcher

namespace ActionDispatcher

/-- `ActionDispatcher._reply` (bot.py line 97-98): identical to the
dispatcher.py variant. -/
def reply (plat : TgApi) (chat : Int) (cache : Int → Option Msg) (data : DataVal) : HandlerOut :=
  match data with
  | .nonMap => (Except.error PyErr.attributeError, cache, [])
  | .map m =>
    let text := m.text.getD ""
    match plat.answer chat text none with
    | Except.ok msg => (Except.ok (some msg), cache, [Call.answer chat text none])
    | Except.error _ => (Except.error PyErr.platformError, cache, [Call.answer chat text none])

/-- `ActionDispatcher._show_menu` (bot.py lines 100-106): same markup rule —
`if buttons else None` makes the markup `none` exactly when the list is
empty. -/
def show_menu (plat : TgApi) (chat : Int) (cache : Int → Option Msg) (data : DataVal) : HandlerOut :=
  match data with
  | .nonMap => (Except.error PyErr.attributeError, cache, [])
  | .map m =>
    let markup := menu_markup (m.buttons.getD [])
    let text := m.text.getD ""
    match plat.answer chat text markup with
    | Except.ok msg => (Except.ok (some msg), cache, [Call.answer chat text markup])
    | Except.error _ => (Except.error PyErr.platformError, cache, [Call.answer chat text markup])

/-- `ActionDispatcher._send_photo` (bot.py lines 108-113). -/
def send_photo (plat : TgApi) (chat : Int) (cache : Int → Option Msg) (data : DataVal) : HandlerOut :=
  match data with
  | .nonMap => (Except.error PyErr.attributeError, cache, [])
  | .map m =>
    match plat.send_photo chat m.photo m.caption with
    | Except.ok msg => (Except.ok (some msg), cache, [Call.send_photo chat m.photo m.caption])
    | Except.error _ => (Except.error PyErr.platformError, cache, [Call.send_photo chat m.photo m.caption])

/-- `ActionDispatcher._edit_message` (bot.py lines 115-128): same target
resolution, but the edit call passes no reply markup; a failure propagates. -/
def edit_message (plat : TgApi) (chat : Int) (cache : Int → Option Msg) (data : DataVal) : HandlerOut :=
  match data with
  | .nonMap => (Except.error PyErr.attributeError, cache, [])
  | .map m =>
    match resolve_target m.message_id (cache chat) with
    | some t =>
      let text := m.text.getD ""
      match plat.edit_message_text chat t text none with
      | Except.ok _ => (Except.ok none, cache, [Call.edit_message_text chat t text none])
      | Except.error _ => (Except.error PyErr.platformError, cache, [Call.edit_message_text chat t text none])
    | none => (Except.ok none, cache, [])

/-- `ActionDispatcher._delete_message` (bot.py lines 130-138): same `pop`
consumption of the cache entry, but the `delete_message` call has no
`try/except`, so a platform failure propagates. -/
def delete_message (plat : TgApi) (chat : Int) (cache : Int → Option Msg) (data : DataVal) : HandlerOut :=
  match data with
  | .nonMap => (Except.error PyErr.attributeError, cache, [])
  | .map m =>
    let cache1 : Int → Option Msg :=
      if truthyO m.message_id then cache else fun c => if c = chat then none else cache c
    match resolve_target m.message_id (cache chat) with
    | some t =>
      match plat.delete_message chat t with
      | Except.ok _ => (Except.ok none, cache1, [Call.delete_message chat t])
      | Except.error _ => (Except.error PyErr.platformError, cache1, [Call.delete_message chat t])
    | none => (Except.ok none, cache1, [])

/-- `ActionDispatcher.dispatch` (bot.py lines 83-95): same control flow as
the dispatcher.py variant (`if handler: ... else: warn`). -/
def dispatch (plat : TgApi) (chat : Int) (cache : Int → Option Msg) (response : ActionResponse) : DispatchOut :=
  let data := response.data.getD (DataVal.map {})
  match response.action with
  | none => { result := Except.ok (), cache := cache, calls := [], warned := false }
  | some a =>
    if a = "" then { result := Except.ok (), cache := cache, calls := [], warned := false }
    else if a = "reply" then record_sent chat (reply plat chat cache data)
    else if a = "show_menu" then record_sent chat (show_menu plat chat cache data)
    else if a = "send_photo" then record_sent chat (send_photo plat chat cache data)
    else if a = "edit_message" then record_sent chat (edit_message plat chat cache data)
    else if a = "delete_message" then record_sent chat (delete_message plat chat cache data)
    else { result := Except.ok (), cache := cache, calls := [], warned := true }

end ActionDispatcher

/-- The registry of action names (the keys of `self.handlers` in both
dispatchers). -/
def handler_names : List String :=
  ["reply", "show_menu", "send_photo", "edit_message", "delete_message"]

/-- The outcome of one HTTP exchange with the backend, as the environment
determines it: the transport itself can fail (connection refused, timeout —
`session.post` raises), or a response arrives with an HTTP status and a body
that either decodes to an `ActionResponse` or does not. -/
inductive HttpOutcome where
  | transportFail : HttpOutcome
  | response : Nat → Option ActionResponse → HttpOutcome
deriving DecidableEq

/-- `send_to_server` (bot.py lines 31-40): only `resp.json()` is inside the
`try/except`, so a decode failure degrades to `{}`; an exception from
`session.post` itself is not caught; the HTTP status is never inspected. -/
def send_to_server : HttpOutcome → Except Unit ActionResponse
  | HttpOutcome.transportFail => Except.error ()
  | HttpOutcome.response _ none => Except.ok {}
  | HttpOutcome.response _ (some b) => Except.ok b

/-- The state behind `get_session_id`: the `session_ids` dict plus the
`uuid4` generator, modelled as a stream of tokens and a position. -/
structure SessState where
  session_ids : Int → Option String
  supply : Nat → String
  next : Nat

/-- `get_session_id` (bot.py lines 24-28): allocate a fresh token on first
contact with a chat, then always return the stored one. -/
def get_session_id (chat_id : Int) (st : SessState) : String × SessState :=
  match st.session_ids chat_id with
  | some s => (s, st)
  | none =>
    let s := st.supply st.next
    (s, { st with
          session_ids := fun c => if c = chat_id then some s else st.session_ids c,
          next := st.next + 1 })

/-- A sequence of `get_session_id` calls (one per listed chat), threading the
state. -/
def runCalls : List Int → SessState → SessState
  | [], st => st
  | c :: cs, st => runCalls cs (get_session_id c st).2

/-- A platform oracle on which every call succeeds, always returning the
message handle `7`. -/
def plat_ok : TgApi :=
  { answer := fun _ _ _ => Except.ok ⟨7⟩,
    send_photo := fun _ _ _ => Except.ok ⟨7⟩,
    edit_message_text := fun _ _ _ _ => Except.ok (),
    delete_message := fun _ _ => Except.ok () }

/-- A platform oracle on which every call fails. -/
def plat_fail : TgApi :=
  { answer := fun _ _ _ => Except.error (),
    send_photo := fun _ _ _ => Except.error (),
    edit_message_text := fun _ _ _ _ => Except.error (),
    delete_message := fun _ _ => Except.error () }

/-- The empty last-bot-message cache. -/
def cache0 : Int → Option Msg := fun _ => none

/-- A cache holding message `5` for chat `1`. -/
def cache1_5 : Int → Option Msg := fun c => if c = 1 then some ⟨5⟩ else none

/-- A cache holding a message with identifier `0` for chat `1` (such an entry
arises when the platform oracle returns a handle with id `0` for a send). -/
def cache1_0 : Int → Option Msg := fun c => if c = 1 then some ⟨0⟩ else none

/-- A fresh session store whose uuid supply yields `"u0", "u1", ...`. -/
def sess0 : SessState :=
  { session_ids := fun _ => none, supply := fun n => "u" ++ toString n, next := 0 }

/-- The cache fallback as the resolution policy words it: the cached
last-bot-message identifier when an entry exists and its identifier is
truthy, nothing otherwise. -/
def fallback_of : Option Msg → Option JVal
  | some last => if (JVal.i last.message_id).truthy then some (JVal.i last.message_id) else none
  | none => none

/-- The resolution policy stated declaratively: take a truthy explicit
`data.message_id`; otherwise fall back to the cache. -/
def resolved_target_policy (mid : Option JVal) (cached : Option Msg) : Option JVal :=
  match mid with
  | some t => if t.truthy then some t else fallback_of cached
  | none => fallback_of cached

/-- Claim C1, counterexample: `send_to_server` does not return an empty
`ActionResponse` on a transport failure — the exception from `session.post`
is outside the `try/except` and propagates; moreover a non-2xx response whose
body decodes is returned as-is, not emptied. -/
theorem send_to_server_transport_failure_propagates :
    send_to_server HttpOutcome.transportFail = Except.error ()
    ∧ send_to_server HttpOutcome.transportFail ≠ Except.ok ({} : ActionResponse)
    ∧ send_to_server (HttpOutcome.response 500 (some { action := some "reply" }))
        = Except.ok { action := some "reply" } := by
  refine ⟨rfl, by simp [send_to_server], rfl⟩

/-- Claim C1, amended: `exchange` degrades to an empty `ActionResponse`
(`action` absent) only on a response body that is not valid structured data;
a decodable body is returned as-is whatever the HTTP status; a transport
failure is not caught and propagates; and dispatching the empty
`ActionResponse` is a `NoOp` in both dispatchers (no call, no state change,
no warning, no exception). -/
theorem send_to_server_decode_failure_degrades :
    (∀ status : Nat, send_to_server (HttpOutcome.response status none) = Except.ok {})
    ∧ (∀ (status : Nat) (b : ActionResponse),
        send_to_server (HttpOutcome.response status (some b)) = Except.ok b)
    ∧ send_to_server HttpOutcome.transportFail = Except.error ()
    ∧ (∀ (plat : TgApi) (chat : Int) (cache : Int → Option Msg),
        MessageDispatcher.dispatch plat chat cache {} =
          { result := Except.ok (), cache := cache, calls := [], warned := false })
    ∧ (∀ (plat : TgApi) (chat : Int) (cache : Int → Option Msg),
        ActionDispatcher.dispatch plat chat cache {} =
          { result := Except.ok (), cache := cache, calls := [], warned := false }) := by
  refine ⟨fun _ => rfl, fun _ _ => rfl, rfl, fun _ _ _ => rfl, fun _ _ _ => rfl⟩

/-- Claim C4, counterexample: with `data` present but not a mapping, the
`reply` handler raises `AttributeError` (attribute access `.get` on a
non-mapping), while the same action with `data = {}` completes normally —
the two behaviors differ. -/
theorem non_mapping_data_raises_counterexample :
    (MessageDispatcher.dispatch plat_ok 1 cache0
        { action := some "reply", data := some DataVal.nonMap }).result
      = Except.error PyErr.attributeError
    ∧ (MessageDispatcher.dispatch plat_ok 1 cache0
        { action := some "reply", data := some (DataVal.map {}) }).result
      = Except.ok ()
    ∧ (Except.error PyErr.attributeError : Except PyErr Unit) ≠ Except.ok () := by
  refine ⟨rfl, rfl, by simp⟩

/-- Claim C4, amended: a `data` that is present but not a mapping is passed
through to the handler unchanged, and every registered handler then raises
`AttributeError` on its first field access — the dispatch cycle propagates
the exception, makes no platform call and changes no state, instead of
behaving as with `data = {}`.  (Only an absent `data` key defaults to `{}`.) -/
theorem non_mapping_data_raises :
    ∀ (plat : TgApi) (chat : Int) (cache : Int → Option Msg),
    MessageDispatcher.dispatch plat chat cache { action := some "reply", data := some DataVal.nonMap }
        = ⟨Except.error PyErr.attributeError, cache, [], false⟩
    ∧ MessageDispatcher.dispatch plat chat cache { action := some "show_menu", data := some DataVal.nonMap }
        = ⟨Except.error PyErr.attributeError, cache, [], false⟩
    ∧ MessageDispatcher.dispatch plat chat cache { action := some "send_photo", data := some DataVal.nonMap }
        = ⟨Except.error PyErr.attributeError, cache, [], false⟩
    ∧ MessageDispatcher.dispatch plat chat cache { action := some "edit_message", data := some DataVal.nonMap }
        = ⟨Except.error PyErr.attributeError, cache, [], false⟩
    ∧ MessageDispatcher.dispatch plat chat cache { action := some "delete_message", data := some DataVal.nonMap }
        = ⟨Except.error PyErr.attributeError, cache, [], false⟩
    ∧ ActionDispatcher.dispatch plat chat cache { action := some "reply", data := some DataVal.nonMap }
        = ⟨Except.error PyErr.attributeError, cache, [], false⟩
    ∧ ActionDispatcher.dispatch plat chat cache { action := some "show_menu", data := some DataVal.nonMap }
        = ⟨Except.error PyErr.attributeError, cache, [], false⟩
    ∧ ActionDispatcher.dispatch plat chat cache { action := some "send_photo", data := some DataVal.nonMap }
        = ⟨Except.error PyErr.attributeError, cache, [], false⟩
    ∧ ActionDispatcher.dispatch plat chat cache { action := some "edit_message", data := some DataVal.nonMap }
        = ⟨Except.error PyErr.attributeError, cache, [], false⟩
    ∧ ActionDispatcher.dispatch plat chat cache { action := some "delete_message", data := some DataVal.nonMap }
        = ⟨Except.error PyErr.attributeError, cache, [], false⟩ := by
  intro plat chat cache
  refine ⟨rfl, rfl, rfl, rfl, rfl, rfl, rfl, rfl, rfl, rfl⟩

/-- A truthy explicit `message_id` resolves to itself, whatever the cache
holds. -/
theorem resolve_target_truthy {t : JVal} (h : t.truthy = true) (cached : Option Msg) :
    resolve_target (some t) cached = some t := by
  simp [resolve_target, truthyO, h]

/-- A falsy explicit `message_id` resolves exactly as an absent one. -/
theorem resolve_target_falsy {t : JVal} (h : t.truthy = false) (cached : Option Msg) :
    resolve_target (some t) cached = resolve_target none cached := by
  cases cached <;> simp [resolve_target, truthyO, h]

/-- The imperative two-step resolution of the source equals the declarative
policy. -/
theorem resolve_target_eq_policy (mid : Option JVal) (cached : Option Msg) :
    resolve_target mid cached = resolved_target_policy mid cached := by
  cases mid with
  | none => cases cached <;> simp [resolve_target, resolved_target_policy, fallback_of, truthyO]
  | some t =>
    cases h : t.truthy <;> cases cached <;>
      simp [resolve_target, resolved_target_policy, fallback_of, truthyO, h]

/-- Claim C2, counterexample: executing `send_photo` for chat `1` on an empty
cache records the sent photo message as the chat's last bot message, in both
dispatchers — the cache entry changes from absent to present. -/
theorem send_photo_updates_cache_counterexample :
    cache0 1 = none
    ∧ (MessageDispatcher.dispatch plat_ok 1 cache0
        { action := some "send_photo", data := some (DataVal.map {}) }).cache 1 = some ⟨7⟩
    ∧ (ActionDispatcher.dispatch plat_ok 1 cache0
        { action := some "send_photo", data := some (DataVal.map {}) }).cache 1 = some ⟨7⟩ := by
  refine ⟨rfl, rfl, rfl⟩

/-- Claim C2, amended: `_send_photo` returns the platform's message handle,
and `dispatch` records any non-`None` handler return value — so a successful
`send_photo` overwrites the chat's last-bot-message cache entry with the sent
photo message (other chats' entries are untouched); only when the platform
call fails (and the failure propagates) is the cache left unchanged. -/
theorem send_photo_records_last_message :
    ∀ (plat : TgApi) (chat : Int) (cache : Int → Option Msg) (m : DataMap),
    MessageDispatcher.dispatch plat chat cache
        { action := some "send_photo", data := some (DataVal.map m) } =
      (match plat.send_photo chat m.photo m.caption with
       | Except.ok msg =>
         { result := Except.ok (), cache := fun c => if c = chat then some msg else cache c,
           calls := [Call.send_photo chat m.photo m.caption], warned := false }
       | Except.error _ =>
         { result := Except.error PyErr.platformError, cache := cache,
           calls := [Call.send_photo chat m.photo m.caption], warned := false })
    ∧ ActionDispatcher.dispatch plat chat cache
        { action := some "send_photo", data := some (DataVal.map m) } =
      (match plat.send_photo chat m.photo m.caption with
       | Except.ok msg =>
         { result := Except.ok (), cache := fun c => if c = chat then some msg else cache c,
           calls := [Call.send_photo chat m.photo m.caption], warned := false }
       | Except.error _ =>
         { result := Except.error PyErr.platformError, cache := cache,
           calls := [Call.send_photo chat m.photo m.caption], warned := false }) := by
  intro plat chat cache m
  constructor <;> cases h : plat.send_photo chat m.photo m.caption <;>
    simp [MessageDispatcher.dispatch, ActionDispatcher.dispatch,
      MessageDispatcher.send_photo, ActionDispatcher.send_photo, record_sent, h]

/-- Claim C3, counterexample: a platform failure on the `reply` send
propagates out of `MessageDispatcher.dispatch`, and a platform failure on the
delete call propagates out of `ActionDispatcher.dispatch` — neither is
swallowed inside the executor. -/
theorem platform_failure_propagates_counterexample :
    (MessageDispatcher.dispatch plat_fail 1 cache0
        { action := some "reply", data := some (DataVal.map {}) }).result
      = Except.error PyErr.platformError
    ∧ (ActionDispatcher.dispatch plat_fail 1 cache1_5
        { action := some "delete_message", data := some (DataVal.map {}) }).result
      = Except.error PyErr.platformError := by
  refine ⟨rfl, rfl⟩

/-- Claim C3, amended: only the delete call in `MessageDispatcher` is inside
a `try/except` — that dispatch never raises, whatever the platform does; in
`ActionDispatcher` the delete failure propagates (as do send/edit failures in
both dispatchers, per the counterexample). -/
theorem delete_platform_failure_swallowed :
    ∀ (plat : TgApi) (chat : Int) (cache : Int → Option Msg) (m : DataMap),
    (MessageDispatcher.dispatch plat chat cache
        { action := some "delete_message", data := some (DataVal.map m) }).result = Except.ok ()
    ∧ (ActionDispatcher.dispatch plat chat cache
        { action := some "delete_message", data := some (DataVal.map m) }).result =
        (match resolve_target m.message_id (cache chat) with
         | some t =>
           match plat.delete_message chat t with
           | Except.ok _ => Except.ok ()
           | Except.error _ => Except.error PyErr.platformError
         | none => Except.ok ()) := by
  intro plat chat cache m
  constructor
  · cases hr : resolve_target m.message_id (cache chat) with
    | none =>
      simp [MessageDispatcher.dispatch, MessageDispatcher.delete_message, record_sent, hr]
    | some t =>
      cases hp : plat.delete_message chat t <;>
        simp [MessageDispatcher.dispatch, MessageDispatcher.delete_message, record_sent, hr, hp]
  · cases hr : resolve_target m.message_id (cache chat) with
    | none =>
      simp [ActionDispatcher.dispatch, ActionDispatcher.delete_message, record_sent, hr]
    | some t =>
      cases hp : plat.delete_message chat t <;>
        simp [ActionDispatcher.dispatch, ActionDispatcher.delete_message, record_sent, hr, hp]

/-- Claim C6, counterexample: with an explicit but falsy `data.message_id`
(the integer `0`) and a cached last message `5`, `edit_message` targets the
cached message `5`, not the explicitly supplied `0` — resolution is not "from
`data.message_id` when present". -/
theorem edit_message_presence_counterexample :
    (MessageDispatcher.dispatch plat_ok 1 cache1_5
        { action := some "edit_message",
          data := some (DataVal.map { message_id := some (JVal.i 0) }) }).calls
      = [Call.edit_message_text 1 (JVal.i 5) "" none]
    ∧ [Call.edit_message_text 1 (JVal.i 5) "" none]
        ≠ [Call.edit_message_text 1 (JVal.i 0) "" none] := by
  refine ⟨rfl, by decide⟩

/-- Claim C6, amended: `edit_message` resolves its target from
`data.message_id` when that value is present and truthy, otherwise from the
chat's cached last-bot-message identifier (itself subject to the same
truthiness test); when neither resolves, the result is `NoOp` — no edit call,
no state change, normal return.  Both dispatchers follow this policy; the
edit call carries `data.text` (default `""`) and, in `MessageDispatcher`
only, the optional `buttons` markup. -/
theorem edit_message_resolution :
    ∀ (plat : TgApi) (chat : Int) (cache : Int → Option Msg) (m : DataMap),
    MessageDispatcher.dispatch plat chat cache
        { action := some "edit_message", data := some (DataVal.map m) } =
      (match resolved_target_policy m.message_id (cache chat) with
       | some t =>
         match plat.edit_message_text chat t (m.text.getD "") (edit_markup m.buttons) with
         | Except.ok _ =>
           { result := Except.ok (), cache := cache,
             calls := [Call.edit_message_text chat t (m.text.getD "") (edit_markup m.buttons)],
             warned := false }
         | Except.error _ =>
           { result := Except.error PyErr.platformError, cache := cache,
             calls := [Call.edit_message_text chat t (m.text.getD "") (edit_markup m.buttons)],
             warned := false }
       | none => { result := Except.ok (), cache := cache, calls := [], warned := false })
    ∧ ActionDispatcher.dispatch plat chat cache
        { action := some "edit_message", data := some (DataVal.map m) } =
      (match resolved_target_policy m.message_id (cache chat) with
       | some t =>
         match plat.edit_message_text chat t (m.text.getD "") none with
         | Except.ok _ =>
           { result := Except.ok (), cache := cache,
             calls := [Call.edit_message_text chat t (m.text.getD "") none],
             warned := false }
         | Except.error _ =>
           { result := Except.error PyErr.platformError, cache := cache,
             calls := [Call.edit_message_text chat t (m.text.getD "") none],
             warned := false }
       | none => { result := Except.ok (), cache := cache, calls := [], warned := false }) := by
  intro plat chat cache m
  have hr := resolve_target_eq_policy m.message_id (cache chat)
  constructor
  · cases hp : resolved_target_policy m.message_id (cache chat) with
    | none =>
      rw [hp] at hr
      simp [MessageDispatcher.dispatch, MessageDispatcher.edit_message, record_sent, hr, hp]
    | some t =>
      rw [hp] at hr
      cases he : plat.edit_message_text chat t (m.text.getD "") (edit_markup m.buttons) <;>
        simp [MessageDispatcher.dispatch, MessageDispatcher.edit_message, record_sent, hr, hp, he]
  · cases hp : resolved_target_policy m.message_id (cache chat) with
    | none =>
      rw [hp] at hr
      simp [ActionDispatcher.dispatch, ActionDispatcher.edit_message, record_sent, hr, hp]
    | some t =>
      rw [hp] at hr
      cases he : plat.edit_message_text chat t (m.text.getD "") none <;>
        simp [ActionDispatcher.dispatch, ActionDispatcher.edit_message, record_sent, hr, hp, he]

/-- Claim C7: with a cache entry present and no `data.message_id`, executing
`delete_message` clears the chat's cache entry in both dispatchers — whatever
the platform answers, since the `pop` happens before the delete call. -/
theorem delete_message_clears_cache :
    ∀ (plat : TgApi) (chat : Int) (cache : Int → Option Msg) (m : DataMap) (last : Msg),
    cache chat = some last → m.message_id = none →
    (MessageDispatcher.dispatch plat chat cache
        { action := some "delete_message", data := some (DataVal.map m) }).cache chat = none
    ∧ (ActionDispatcher.dispatch plat chat cache
        { action := some "delete_message", data := some (DataVal.map m) }).cache chat = none := by
  intro plat chat cache m last hc hm
  constructor
  · cases hr : resolve_target none (cache chat) with
    | none =>
      simp [MessageDispatcher.dispatch, MessageDispatcher.delete_message, record_sent,
        hm, hr, truthyO]
    | some t =>
      cases hp : plat.delete_message chat t <;>
        simp [MessageDispatcher.dispatch, MessageDispatcher.delete_message, record_sent,
          hm, hr, hp, truthyO]
  · cases hr : resolve_target none (cache chat) with
    | none =>
      simp [ActionDispatcher.dispatch, ActionDispatcher.delete_message, record_sent,
        hm, hr, truthyO]
    | some t =>
      cases hp : plat.delete_message chat t <;>
        simp [ActionDispatcher.dispatch, ActionDispatcher.delete_message, record_sent,
          hm, hr, hp, truthyO]

/-- Claim C7, witness: chat `1` has cached message `5`; after
`delete_message` with empty `data` on the all-failing platform, the entry is
gone in both dispatchers — cleared even though the platform delete failed. -/
theorem delete_message_clears_cache_witness :
    cache1_5 1 = some ⟨5⟩
    ∧ (MessageDispatcher.dispatch plat_fail 1 cache1_5
        { action := some "delete_message", data := some (DataVal.map {}) }).cache 1 = none
    ∧ (ActionDispatcher.dispatch plat_fail 1 cache1_5
        { action := some "delete_message", data := some (DataVal.map {}) }).cache 1 = none :=
  ⟨rfl, (delete_message_clears_cache plat_fail 1 cache1_5 {} ⟨5⟩ rfl rfl).1,
        (delete_message_clears_cache plat_fail 1 cache1_5 {} ⟨5⟩ rfl rfl).2⟩

/-- Claim C8, counterexample: a `data` mapping carrying the explicit (falsy)
`message_id = 0` still makes `delete_message` read the cache (the delete call
targets the cached message `5`) and mutate it (the entry is cleared). -/
theorem explicit_id_touches_cache_counterexample :
    cache1_5 1 = some ⟨5⟩
    ∧ (MessageDispatcher.dispatch plat_ok 1 cache1_5
        { action := some "delete_message",
          data := some (DataVal.map { message_id := some (JVal.i 0) }) }).cache 1 = none
    ∧ (MessageDispatcher.dispatch plat_ok 1 cache1_5
        { action := some "delete_message",
          data := some (DataVal.map { message_id := some (JVal.i 0) }) }).calls
      = [Call.delete_message 1 (JVal.i 5)] := by
  refine ⟨rfl, rfl, rfl⟩

/-- Claim C8, amended: with an explicit **truthy** `data.message_id`,
`edit_message` and `delete_message` neither read nor write the cache — every
entry is unchanged, and the single platform call targets exactly the supplied
identifier (so it is independent of the cache contents) — in both
dispatchers. -/
theorem explicit_truthy_id_bypasses_cache :
    ∀ (plat : TgApi) (chat : Int) (cache : Int → Option Msg) (m : DataMap) (t : JVal),
    m.message_id = some t → t.truthy = true →
    (∀ c, (MessageDispatcher.dispatch plat chat cache
        { action := some "edit_message", data := some (DataVal.map m) }).cache c = cache c)
    ∧ (∀ c, (MessageDispatcher.dispatch plat chat cache
        { action := some "delete_message", data := some (DataVal.map m) }).cache c = cache c)
    ∧ (∀ c, (ActionDispatcher.dispatch plat chat cache
        { action := some "edit_message", data := some (DataVal.map m) }).cache c = cache c)
    ∧ (∀ c, (ActionDispatcher.dispatch plat chat cache
        { action := some "delete_message", data := some (DataVal.map m) }).cache c = cache c)
    ∧ (MessageDispatcher.dispatch plat chat cache
        { action := some "edit_message", data := some (DataVal.map m) }).calls
      = [Call.edit_message_text chat t (m.text.getD "") (edit_markup m.buttons)]
    ∧ (MessageDispatcher.dispatch plat chat cache
        { action := some "delete_message", data := some (DataVal.map m) }).calls
      = [Call.delete_message chat t]
    ∧ (ActionDispatcher.dispatch plat chat cache
        { action := some "edit_message", data := some (DataVal.map m) }).calls
      = [Call.edit_message_text chat t (m.text.getD "") none]
    ∧ (ActionDispatcher.dispatch plat chat cache
        { action := some "delete_message", data := some (DataVal.map m) }).calls
      = [Call.delete_message chat t] := by
  intro plat chat cache m t hm ht
  have hr : resolve_target m.message_id (cache chat) = some t := by
    rw [hm]; exact resolve_target_truthy ht (cache chat)
  have htr : truthyO m.message_id = true := by rw [hm]; exact ht
  refine ⟨?_, ?_, ?_, ?_, ?_, ?_, ?_, ?_⟩
  · intro c
    cases he : plat.edit_message_text chat t (m.text.getD "") (edit_markup m.buttons) <;>
      simp [MessageDispatcher.dispatch, MessageDispatcher.edit_message, record_sent, hr, he]
  · intro c
    cases hp : plat.delete_message chat t <;>
      simp [MessageDispatcher.dispatch, MessageDispatcher.delete_message, record_sent, hr, htr, hp]
  · intro c
    cases he : plat.edit_message_text chat t (m.text.getD "") none <;>
      simp [ActionDispatcher.dispatch, ActionDispatcher.edit_message, record_sent, hr, he]
  · intro c
    cases hp : plat.delete_message chat t <;>
      simp [ActionDispatcher.dispatch, ActionDispatcher.delete_message, record_sent, hr, htr, hp]
  · cases he : plat.edit_message_text chat t (m.text.getD "") (edit_markup m.buttons) <;>
      simp [MessageDispatcher.dispatch, MessageDispatcher.edit_message, record_sent, hr, he]
  · cases hp : plat.delete_message chat t <;>
      simp [MessageDispatcher.dispatch, MessageDispatcher.delete_message, record_sent, hr, htr, hp]
  · cases he : plat.edit_message_text chat t (m.text.getD "") none <;>
      simp [ActionDispatcher.dispatch, ActionDispatcher.edit_message, record_sent, hr, he]
  · cases hp : plat.delete_message chat t <;>
      simp [ActionDispatcher.dispatch, ActionDispatcher.delete_message, record_sent, hr, htr, hp]

/-- Claim C8, witness: with explicit truthy `message_id = 9` and a cached
message `5` for chat `1`, the delete call targets `9` — the theorem applies
with both hypotheses discharged at this input. -/
theorem explicit_truthy_id_bypasses_cache_witness :
    ({ message_id := some (JVal.i 9) } : DataMap).message_id = some (JVal.i 9)
    ∧ (JVal.i 9).truthy = true
    ∧ (MessageDispatcher.dispatch plat_ok 1 cache1_5
        { action := some "delete_message",
          data := some (DataVal.map { message_id := some (JVal.i 9) }) }).calls
      = [Call.delete_message 1 (JVal.i 9)] :=
  ⟨rfl, by decide,
   (explicit_truthy_id_bypasses_cache plat_ok 1 cache1_5
      { message_id := some (JVal.i 9) } (JVal.i 9) rfl (by decide)).2.2.2.2.2.1⟩

/-- Claim C9, counterexample: the empty string is a present action name
outside the registry, yet `dispatch` treats it as an absent action — it
returns silently, without the unknown-action warning. -/
theorem empty_action_name_silent_counterexample :
    "" ∉ handler_names
    ∧ (MessageDispatcher.dispatch plat_ok 1 cache0 { action := some "" }).warned = false
    ∧ (ActionDispatcher.dispatch plat_ok 1 cache0 { action := some "" }).warned = false := by
  refine ⟨by decide, rfl, rfl⟩

/-- Claim C9, amended: any present, **non-empty** action name outside the
registry table yields a logged warning and a `NoOp`: normal return, no
platform call, cache untouched — in both dispatchers, for any `data` (even a
non-mapping, which is never inspected).  A present-but-empty action name is
treated as an absent action: silent `NoOp` without the warning. -/
theorem unknown_action_noop_warns :
    ∀ (plat : TgApi) (chat : Int) (cache : Int → Option Msg) (a : String) (d : Option DataVal),
    a ∉ handler_names → a ≠ "" →
    MessageDispatcher.dispatch plat chat cache { action := some a, data := d } =
      { result := Except.ok (), cache := cache, calls := [], warned := true }
    ∧ ActionDispatcher.dispatch plat chat cache { action := some a, data := d } =
      { result := Except.ok (), cache := cache, calls := [], warned := true } := by
  intro plat chat cache a d hmem hne
  simp only [handler_names, List.mem_cons, List.not_mem_nil, or_false, not_or] at hmem
  obtain ⟨h1, h2, h3, h4, h5⟩ := hmem
  constructor <;>
    simp [MessageDispatcher.dispatch, ActionDispatcher.dispatch, hne, h1, h2, h3, h4, h5]

/-- Claim C9, witness: `"set_role"` is a non-empty name outside the registry;
dispatching it warns and changes nothing. -/
theorem unknown_action_noop_warns_witness :
    "set_role" ∉ handler_names
    ∧ "set_role" ≠ ""
    ∧ MessageDispatcher.dispatch plat_ok 1 cache0 { action := some "set_role" } =
        { result := Except.ok (), cache := cache0, calls := [], warned := true } :=
  ⟨by decide, by decide,
   (unknown_action_noop_warns plat_ok 1 cache0 "set_role" none (by decide) (by decide)).1⟩

/-- Claim C10, counterexample: with explicit falsy `message_id = 0` and a
cache entry whose own identifier is `0`, `edit_message` falls back to the
cache but then yields `NoOp` even though the cache is **not** empty — the
fallback identifier is itself subject to the truthiness test. -/
theorem falsy_cached_id_noop_counterexample :
    cache1_0 1 = some ⟨0⟩
    ∧ (MessageDispatcher.dispatch plat_ok 1 cache1_0
        { action := some "edit_message",
          data := some (DataVal.map { message_id := some (JVal.i 0) }) }).calls = []
    ∧ (MessageDispatcher.dispatch plat_ok 1 cache1_0
        { action := some "edit_message",
          data := some (DataVal.map { message_id := some (JVal.i 0) }) }).result
      = Except.ok () := by
  refine ⟨rfl, rfl, rfl⟩

/-- Claim C10, amended: a falsy explicit `message_id` (`0` or `""`) is
treated exactly as an absent one — the whole dispatch outcome coincides with
the no-`message_id` outcome for `edit_message` and `delete_message` in both
dispatchers; `delete_message` then always clears the chat's cache entry; and
the edit is a `NoOp` iff the cache fallback also resolves to nothing (empty
cache, or a cached identifier that is itself falsy). -/
theorem falsy_id_treated_as_absent :
    ∀ (plat : TgApi) (chat : Int) (cache : Int → Option Msg) (m : DataMap) (t : JVal),
    t.truthy = false →
    MessageDispatcher.dispatch plat chat cache
        { action := some "edit_message", data := some (DataVal.map { m with message_id := some t }) }
      = MessageDispatcher.dispatch plat chat cache
        { action := some "edit_message", data := some (DataVal.map { m with message_id := none }) }
    ∧ MessageDispatcher.dispatch plat chat cache
        { action := some "delete_message", data := some (DataVal.map { m with message_id := some t }) }
      = MessageDispatcher.dispatch plat chat cache
        { action := some "delete_message", data := some (DataVal.map { m with message_id := none }) }
    ∧ ActionDispatcher.dispatch plat chat cache
        { action := some "edit_message", data := some (DataVal.map { m with message_id := some t }) }
      = ActionDispatcher.dispatch plat chat cache
        { action := some "edit_message", data := some (DataVal.map { m with message_id := none }) }
    ∧ ActionDispatcher.dispatch plat chat cache
        { action := some "delete_message", data := some (DataVal.map { m with message_id := some t }) }
      = ActionDispatcher.dispatch plat chat cache
        { action := some "delete_message", data := some (DataVal.map { m with message_id := none }) }
    ∧ (MessageDispatcher.dispatch plat chat cache
        { action := some "delete_message", data := some (DataVal.map { m with message_id := some t }) }).cache chat = none
    ∧ (ActionDispatcher.dispatch plat chat cache
        { action := some "delete_message", data := some (DataVal.map { m with message_id := some t }) }).cache chat = none
    ∧ ((MessageDispatcher.dispatch plat chat cache
        { action := some "edit_message", data := some (DataVal.map { m with message_id := some t }) }).calls = []
        ↔ fallback_of (cache chat) = none) := by
  intro plat chat cache m t ht
  have hfal := resolve_target_falsy ht (cache chat)
  have hpol : resolve_target (some t) (cache chat) = fallback_of (cache chat) := by
    rw [hfal, resolve_target_eq_policy]
    rfl
  refine ⟨?_, ?_, ?_, ?_, ?_, ?_, ?_⟩
  · simp [MessageDispatcher.dispatch, MessageDispatcher.edit_message, hfal]
  · simp [MessageDispatcher.dispatch, MessageDispatcher.delete_message, hfal, truthyO, ht]
  · simp [ActionDispatcher.dispatch, ActionDispatcher.edit_message, hfal]
  · simp [ActionDispatcher.dispatch, ActionDispatcher.delete_message, hfal, truthyO, ht]
  · cases hr : resolve_target (some t) (cache chat) with
    | none =>
      simp [MessageDispatcher.dispatch, MessageDispatcher.delete_message, record_sent,
        hr, truthyO, ht]
    | some u =>
      cases hp : plat.delete_message chat u <;>
        simp [MessageDispatcher.dispatch, MessageDispatcher.delete_message, record_sent,
          hr, hp, truthyO, ht]
  · cases hr : resolve_target (some t) (cache chat) with
    | none =>
      simp [ActionDispatcher.dispatch, ActionDispatcher.delete_message, record_sent,
        hr, truthyO, ht]
    | some u =>
      cases hp : plat.delete_message chat u <;>
        simp [ActionDispatcher.dispatch, ActionDispatcher.delete_message, record_sent,
          hr, hp, truthyO, ht]
  · cases hf : fallback_of (cache chat) with
    | none =>
      rw [hf] at hpol
      simp [MessageDispatcher.dispatch, MessageDispatcher.edit_message, record_sent, hpol]
    | some u =>
      rw [hf] at hpol
      cases he : plat.edit_message_text chat u (m.text.getD "") (edit_markup m.buttons) <;>
        simp [MessageDispatcher.dispatch, MessageDispatcher.edit_message, record_sent, hpol, he]

/-- Claim C10, witness: the falsy string `""` as explicit `message_id`
behaves exactly like an absent `message_id` for `edit_message` on a concrete
store. -/
theorem falsy_id_treated_as_absent_witness :
    (JVal.s "").truthy = false
    ∧ MessageDispatcher.dispatch plat_ok 1 cache1_5
        { action := some "edit_message",
          data := some (DataVal.map { ({} : DataMap) with message_id := some (JVal.s "") }) }
      = MessageDispatcher.dispatch plat_ok 1 cache1_5
        { action := some "edit_message",
          data := some (DataVal.map { ({} : DataMap) with message_id := none }) } :=
  ⟨by decide, (falsy_id_treated_as_absent plat_ok 1 cache1_5 {} (JVal.s "") (by decide)).1⟩

/-- One `get_session_id` call for any chat `c` preserves an already-stored
session id of any chat. -/
theorem get_session_id_preserves (c chat : Int) (s : String) (st : SessState)
    (h : st.session_ids chat = some s) :
    (get_session_id c st).2.session_ids chat = some s := by
  unfold get_session_id
  cases hc : st.session_ids c with
  | some t => simpa using h
  | none =>
    simp only
    by_cases hch : chat = c
    · rw [hch] at h; rw [hc] at h; exact absurd h (by simp)
    · simpa [hch] using h

/-- Any sequence of `get_session_id` calls preserves a stored session id. -/
theorem runCalls_preserves (cs : List Int) (chat : Int) (s : String) :
    ∀ st : SessState, st.session_ids chat = some s →
      (runCalls cs st).session_ids chat = some s := by
  induction cs with
  | nil => intro st h; simpa [runCalls] using h
  | cons c cs ih =>
    intro st h
    exact ih _ (get_session_id_preserves c chat s st h)

/-- When the chat already has a session id, `get_session_id` returns it and
leaves the state untouched. -/
theorem get_session_id_found {st : SessState} {chat : Int} {s : String}
    (h : st.session_ids chat = some s) : get_session_id chat st = (s, st) := by
  unfold get_session_id
  rw [h]

/-- On first contact, `get_session_id` draws the next supply token, stores it
for the chat and advances the supply position. -/
theorem get_session_id_new {st : SessState} {chat : Int}
    (h : st.session_ids chat = none) :
    get_session_id chat st =
      (st.supply st.next,
       { st with
         session_ids := fun c => if c = chat then some (st.supply st.next) else st.session_ids c,
         next := st.next + 1 }) := by
  unfold get_session_id
  rw [h]

/-- Claim C5: the first `get_session_id` call for a chat stores the returned
token and advances the uuid supply exactly once; calling again for the same
chat returns the very same value and leaves the state untouched (idempotent
after the first call); and the stored id survives any further sequence of
calls, for any chats — it is stable for the life of the process. -/
theorem get_session_id_stable :
    ∀ (st : SessState) (chat : Int),
    (get_session_id chat st).2.session_ids chat = some (get_session_id chat st).1
    ∧ get_session_id chat (get_session_id chat st).2
        = ((get_session_id chat st).1, (get_session_id chat st).2)
    ∧ (st.session_ids chat = none → (get_session_id chat st).2.next = st.next + 1)
    ∧ (∀ cs : List Int,
        (runCalls cs (get_session_id chat st).2).session_ids chat
          = some (get_session_id chat st).1) := by
  intro st chat
  have hstore : (get_session_id chat st).2.session_ids chat = some (get_session_id chat st).1 := by
    cases h : st.session_ids chat with
    | some s => rw [get_session_id_found h]; exact h
    | none => rw [get_session_id_new h]; simp
  refine ⟨hstore, get_session_id_found hstore, ?_, ?_⟩
  · intro h
    rw [get_session_id_new h]
  · intro cs
    exact runCalls_preserves cs chat _ _ hstore

/-- Claim C5, witness: in the fresh store, chat `42` has no session id, the
first call advances the supply by one, and a repeated call returns the same
pair. -/
theorem get_session_id_stable_witness :
    sess0.session_ids 42 = none
    ∧ (get_session_id 42 sess0).2.next = sess0.next + 1
    ∧ get_session_id 42 (get_session_id 42 sess0).2
        = ((get_session_id 42 sess0).1, (get_session_id 42 sess0).2) :=
  ⟨rfl, (get_session_id_stable sess0 42).2.2.1 rfl, (get_session_id_stable sess0 42).2.1⟩

end ClienteGame
